import Mathlib

/-!
Verification of the concurrent batch-analysis path of `app.py`
(the "Task Dispatcher" of the specification).

The dispatcher is the pair of functions `async_gemini_analysis_task`
(app.py lines 48-82) and `run_concurrent_analysis_thread` (app.py
lines 86-124).  The shared mutable state is the list
`st.session_state.tasks` of per-task dictionaries; each coroutine
writes only to the slot at its own index.  The remote
`model.generate_content` call is modelled as an injected oracle
`api : Nat → ApiResult` giving, per task index, either the returned
text, a `BlockedPromptException`, or any other exception.

Since the coroutine bodies contain no `await`, each coroutine is a
single atomic segment for the asyncio event loop; we model the loop
explicitly (`eventLoop`) over coroutines given as lists of atomic
segments, with a FIFO ready queue as `asyncio.gather` uses, and
instrument each segment with start/finish events for its remote call
so that in-flight-call counts and call counts are provable facts of
the trace.
-/

namespace GeminiMusic

/-- Task status tags, one per Chinese status string used in `app.py`:
`待处理` (pending), `进行中` (in progress), `完成` (succeeded),
`被阻止` (blocked), `失败` (failed). -/
inductive Status where
  | pending
  | inProgress
  | succeeded
  | blocked
  | failed
deriving DecidableEq, Repr

/-- A terminal status is one of the three outcome tags. -/
def Status.isTerminal : Status → Bool
  | .succeeded => true
  | .blocked => true
  | .failed => true
  | _ => false

/-- One entry of `st.session_state.tasks`: the per-task dictionary built in
`run_concurrent_analysis_thread` (app.py lines 95-101) with keys
`id`, `status`, `message`, `result`, `error_details`. -/
structure TaskRec where
  id : Nat
  status : Status
  message : String
  result : Option String
  error_details : Option String
deriving DecidableEq, Repr

/-- The initial record appended for task `i` (app.py lines 95-101):
`id = i + 1`, status `待处理`, message `等待开始...`, no result, no error. -/
def initTask (i : Nat) : TaskRec :=
  { id := i + 1
    status := .pending
    message := "等待开始..."
    result := none
    error_details := none }

/-- The task list after the initialisation loop of
`run_concurrent_analysis_thread` (app.py lines 91-102). -/
def initTasks (n : Nat) : List TaskRec :=
  (List.range n).map initTask

/-- Result of one `model.generate_content` invocation, as observed by the
caller: a text response, a `genai.types.BlockedPromptException` (whose
`str` is carried), or any other exception (whose `str` is carried). -/
inductive ApiResult where
  | ok (text : String)
  | blockedEx (msg : String)
  | err (msg : String)
deriving DecidableEq, Repr

/-- `st.session_state.tasks[task_index][...] = ...`: update the record at
index `i` of the task list, leaving every other slot unchanged
(out-of-range indices leave the list unchanged). -/
def setSlot (i : Nat) (f : TaskRec → TaskRec) : List TaskRec → List TaskRec
  | [] => []
  | t :: ts =>
    match i with
    | 0 => f t :: ts
    | j + 1 => t :: setSlot j f ts

/-- The body of `async_gemini_analysis_task(task_index, prompt, audio_bytes,
mime_type, model_id)` (app.py lines 48-82) as a transformer of the shared
task list, given the outcome `api` of its single `generate_content` call.
First the slot is marked in progress (lines 55-56); then the `try`, the
`except genai.types.BlockedPromptException` branch, or the
`except Exception` branch updates the same slot.  `st.rerun()` only
refreshes the UI and is not modelled.  The `prompt`, `audio_bytes` and
`mime_type` arguments only feed the remote call, which the `api` oracle
abstracts; `model_id` also appears in the progress message. -/
def async_gemini_analysis_task (model_id : String) (task_index : Nat)
    (api : ApiResult) (tasks : List TaskRec) : List TaskRec :=
  let tasks1 := setSlot task_index
    (fun t => { t with
      status := .inProgress
      message := "正在用 " ++ model_id ++ " 模型分析..." }) tasks
  match api with
  | .ok text =>
    setSlot task_index
      (fun t => { t with
        status := .succeeded
        result := some text
        message := "分析成功！" }) tasks1
  | .blockedEx m =>
    setSlot task_index
      (fun t => { t with
        status := .blocked
        message := "请求被模型安全设置阻止: " ++ m
        error_details := some m }) tasks1
  | .err m =>
    setSlot task_index
      (fun t => { t with
        status := .failed
        message := "分析失败: " ++ m
        error_details := some m }) tasks1

/-- The record task `i` leaves in its own slot, starting from `initTask i`,
by case on the outcome of its `generate_content` call. -/
def finalOutcome (i : Nat) : ApiResult → TaskRec
  | .ok text =>
    { id := i + 1
      status := .succeeded
      message := "分析成功！"
      result := some text
      error_details := none }
  | .blockedEx m =>
    { id := i + 1
      status := .blocked
      message := "请求被模型安全设置阻止: " ++ m
      result := none
      error_details := some m }
  | .err m =>
    { id := i + 1
      status := .failed
      message := "分析失败: " ++ m
      result := none
      error_details := some m }

/-- Instrumentation events: the start and the finish of the remote
`generate_content` call of task `i`. -/
inductive Ev where
  | start (i : Nat)
  | finish (i : Nat)
deriving DecidableEq, Repr

/-- One atomic segment of a coroutine: code between two `await` points.  It
transforms the shared state and performs the listed call events. -/
structure Seg (σ ε : Type) where
  run : σ → σ
  evs : List ε

/-- The asyncio event loop with a FIFO ready queue, as driven by
`loop.run_until_complete(asyncio.gather(*tasks_to_run))` (app.py line 120):
the task at the head of the queue executes its next atomic segment; if
segments remain it is re-queued at the back (it suspended at an `await`),
otherwise it completes.  Returns the final shared state, the event trace,
and the completion order.  `fuel` bounds the number of loop iterations. -/
def eventLoop {σ ε : Type} :
    Nat → List (Nat × List (Seg σ ε)) → σ → List ε → List Nat →
    σ × List ε × List Nat
  | 0, _, s, tr, done => (s, tr, done)
  | _ + 1, [], s, tr, done => (s, tr, done)
  | fuel + 1, (i, []) :: q, s, tr, done =>
    eventLoop fuel q s tr (done ++ [i])
  | fuel + 1, (i, [seg]) :: q, s, tr, done =>
    eventLoop fuel q (seg.run s) (tr ++ seg.evs) (done ++ [i])
  | fuel + 1, (i, seg :: s2 :: rest) :: q, s, tr, done =>
    eventLoop fuel (q ++ [(i, s2 :: rest)]) (seg.run s) (tr ++ seg.evs) done

/-- The coroutine `async_gemini_analysis_task(i, ...)` as scheduled by the
event loop: a single atomic segment, because its body contains no `await`
point (the `generate_content` call at app.py line 63 is a plain
synchronous call).  The segment performs exactly one remote call,
bracketed by its start and finish events. -/
def taskSeg (model_id : String) (i : Nat) (api : ApiResult) :
    Seg (List TaskRec) Ev :=
  { run := async_gemini_analysis_task model_id i api
    evs := [Ev.start i, Ev.finish i] }

/-- The list comprehension building `tasks_to_run` (app.py lines 108-117),
as the queue handed to the event loop: one single-segment coroutine per
index `0 ≤ i < n`. -/
def tasks_to_run_segs (n : Nat) (model_id : String) (api : Nat → ApiResult) :
    List (Nat × Seg (List TaskRec) Ev) :=
  (List.range n).map (fun i => (i, taskSeg model_id i (api i)))

/-- Result of one batch run: the final task list, the trace of remote-call
events, and the order in which the tasks completed. -/
structure RunResult where
  tasks : List TaskRec
  trace : List Ev
  completed : List Nat
deriving Repr

/-- `run_concurrent_analysis_thread(num_concurrent_requests, ...)`
(app.py lines 86-124): reset and initialise the task list (lines 91-102),
build the coroutines (lines 108-117) and run them all to completion on a
fresh event loop (line 120). -/
def run_concurrent_analysis_thread (num_concurrent_requests : Nat)
    (model_id : String) (api : Nat → ApiResult) : RunResult :=
  let res := eventLoop num_concurrent_requests
    ((tasks_to_run_segs num_concurrent_requests model_id api).map
      (fun p => (p.1, [p.2])))
    (initTasks num_concurrent_requests) [] []
  { tasks := res.1, trace := res.2.1, completed := res.2.2 }

/-- Running the per-task state transformers in an arbitrary completion
order `order` over the initialised task list: the cumulative effect of any
interleaving of the (atomic) tasks that executes them in that order. -/
def runSchedule (n : Nat) (model_id : String) (api : Nat → ApiResult)
    (order : List Nat) : List TaskRec :=
  order.foldl (fun ts i => async_gemini_analysis_task model_id i (api i) ts)
    (initTasks n)

/-- Number of remote calls in flight after a list of events, starting from
`a` already active: a start adds one, a finish removes one. -/
def inFlightFrom : Nat → List Ev → Nat
  | a, [] => a
  | a, .start _ :: r => inFlightFrom (a + 1) r
  | a, .finish _ :: r => inFlightFrom (a - 1) r

/-- Number of remote calls in flight at the end of an event trace. -/
def inFlight (tr : List Ev) : Nat := inFlightFrom 0 tr

/-- Number of `generate_content` invocations for task index `i` recorded in
an event trace. -/
def countStart (i : Nat) : List Ev → Nat
  | [] => 0
  | .start j :: r => (if j = i then 1 else 0) + countStart i r
  | .finish _ :: r => countStart i r

/-- The sequential loop of the refinement claim: process the items one at a
time in index order, collecting each item's outcome directly.  (Spec-side
definition, to be compared with the dispatcher.) -/
def sequential_loop (n : Nat) (api : Nat → ApiResult) : List TaskRec :=
  (List.range n).map (fun i => finalOutcome i (api i))

/-- The argument tuples handed to the coroutines by the list comprehension
of app.py lines 108-117: `(i, user_prompt, uploaded_file_bytes,
uploaded_file_type, model_id)` per index, where the button handler
(app.py lines 282-297) supplies the single uploaded file's bytes and
content type, the one prompt and the one selected model. -/
structure TaskArgs where
  task_index : Nat
  prompt : String
  audio_bytes : List Nat
  mime_type : String
  model_id : String
deriving DecidableEq, Repr

/-- The list `tasks_to_run` of app.py lines 108-117, projected to the
arguments each coroutine receives. -/
def tasks_to_run (n : Nat) (user_prompt : String)
    (uploaded_file_bytes : List Nat) (uploaded_file_type : String)
    (model_id : String) : List TaskArgs :=
  (List.range n).map
    (fun i =>
      { task_index := i
        prompt := user_prompt
        audio_bytes := uploaded_file_bytes
        mime_type := uploaded_file_type
        model_id := model_id })

/-- A unit of batch input per the specification's data model: a display
name, an opaque binary payload, and a content-type tag. -/
structure WorkItem where
  name : String
  payload : List Nat
  content_type : String
deriving DecidableEq, Repr

/-- A report row: a flattened projection of one work item and its outcome
(file name, status, message, result text, error detail). -/
structure ReportRow where
  file_name : String
  status : Status
  message : String
  result_text : Option String
  error_detail : Option String
deriving DecidableEq, Repr

/-- The projection of one (work item, outcome) pair to its report row. -/
def report_row (it : WorkItem) (r : TaskRec) : ReportRow :=
  { file_name := it.name
    status := r.status
    message := r.message
    result_text := r.result
    error_detail := r.error_details }

/-- Modelled from the spec: the Batch Report Builder's `build_report`
belongs to this repository but is not implemented in `src/app.py` (the
only file under src/).  Per the specification, `build_report(items,
results)` requires `items` and `results` to be index-aligned and of equal
length, fails fast on a violation (a programming error, not a recoverable
condition), and otherwise produces one report row per pair, preserving
input order. -/
def build_report (items : List WorkItem) (results : List TaskRec) :
    Except String (List ReportRow) :=
  if items.length = results.length then
    Except.ok (List.zipWith report_row items results)
  else
    Except.error "build_report: items and results must be index-aligned and of equal length"

/-- A sample remote-call oracle for the concrete witnesses: task 0 succeeds,
task 1 is rejected by the safety settings, every other task raises a
generic exception. -/
def apiSample : Nat → ApiResult := fun i =>
  if i = 0 then ApiResult.ok "这段音频是一段钢琴曲。"
  else if i = 1 then ApiResult.blockedEx "safety"
  else ApiResult.err "network error"

/-- A sample work item for the concrete witnesses. -/
def sampleItem : WorkItem :=
  { name := "song.mp3", payload := [1, 2, 3], content_type := "audio/mpeg" }

/-- A sample outcome record for the concrete witnesses. -/
def sampleRec : TaskRec := finalOutcome 0 (ApiResult.ok "ok")

/-! ### Helper lemmas about slot updates -/

theorem length_setSlot (i : Nat) (f : TaskRec → TaskRec) (ts : List TaskRec) :
    (setSlot i f ts).length = ts.length := by
  induction ts generalizing i with
  | nil => simp [setSlot]
  | cons t ts ih => cases i <;> simp [setSlot, ih]

theorem getElem?_setSlot_self (i : Nat) (f : TaskRec → TaskRec)
    (ts : List TaskRec) : (setSlot i f ts)[i]? = ts[i]?.map f := by
  induction ts generalizing i with
  | nil => simp [setSlot]
  | cons t ts ih => cases i <;> simp [setSlot, ih]

theorem getElem?_setSlot_ne (i j : Nat) (f : TaskRec → TaskRec)
    (ts : List TaskRec) (h : j ≠ i) : (setSlot i f ts)[j]? = ts[j]? := by
  induction ts generalizing i j with
  | nil => simp [setSlot]
  | cons t ts ih =>
    cases i with
    | zero =>
      cases j with
      | zero => exact absurd rfl h
      | succ j => simp [setSlot]
    | succ i =>
      cases j with
      | zero => simp [setSlot]
      | succ j =>
        simp only [setSlot, List.getElem?_cons_succ]
        exact ih i j (fun hh => h (by omega))

/-! ### Helper lemmas about one task's effect -/

theorem length_task (mid : String) (i : Nat) (api : ApiResult)
    (ts : List TaskRec) :
    (async_gemini_analysis_task mid i api ts).length = ts.length := by
  cases api <;> simp [async_gemini_analysis_task, length_setSlot]

theorem task_getElem?_ne (mid : String) (i : Nat) (api : ApiResult)
    (ts : List TaskRec) (j : Nat) (h : j ≠ i) :
    (async_gemini_analysis_task mid i api ts)[j]? = ts[j]? := by
  cases api <;>
    simp [async_gemini_analysis_task, getElem?_setSlot_ne _ _ _ _ h]

theorem task_getElem?_self (mid : String) (i : Nat) (api : ApiResult)
    (ts : List TaskRec) (h : ts[i]? = some (initTask i)) :
    (async_gemini_analysis_task mid i api ts)[i]? =
      some (finalOutcome i api) := by
  cases api <;>
    simp [async_gemini_analysis_task, getElem?_setSlot_self, h, finalOutcome,
      initTask]

/-! ### Helper lemmas about the initial task list -/

theorem initTasks_length (n : Nat) : (initTasks n).length = n := by
  simp [initTasks]

theorem initTasks_getElem? (n i : Nat) (h : i < n) :
    (initTasks n)[i]? = some (initTask i) := by
  simp [initTasks, List.getElem?_map, List.getElem?_range, h]

/-! ### Helper lemmas about folding tasks in a completion order -/

theorem foldl_tasks_length (mid : String) (api : Nat → ApiResult)
    (order : List Nat) (ts : List TaskRec) :
    (order.foldl
        (fun ts j => async_gemini_analysis_task mid j (api j) ts) ts).length =
      ts.length := by
  induction order generalizing ts with
  | nil => rfl
  | cons j rest ih => simp [List.foldl_cons, ih, length_task]

theorem foldl_tasks_getElem?_not_mem (mid : String) (api : Nat → ApiResult)
    (order : List Nat) (ts : List TaskRec) (i : Nat) (h : i ∉ order) :
    (order.foldl
        (fun ts j => async_gemini_analysis_task mid j (api j) ts) ts)[i]? =
      ts[i]? := by
  induction order generalizing ts with
  | nil => rfl
  | cons j rest ih =>
    simp only [List.mem_cons, not_or] at h
    simp only [List.foldl_cons]
    rw [ih _ h.2, task_getElem?_ne _ _ _ _ _ h.1]

theorem foldl_tasks_getElem?_count_one (mid : String) (api : Nat → ApiResult)
    (order : List Nat) (ts : List TaskRec) (i : Nat)
    (hc : order.count i = 1) (hts : ts[i]? = some (initTask i)) :
    (order.foldl
        (fun ts j => async_gemini_analysis_task mid j (api j) ts) ts)[i]? =
      some (finalOutcome i (api i)) := by
  induction order generalizing ts with
  | nil => simp [List.count_nil] at hc
  | cons j rest ih =>
    by_cases hji : j = i
    · subst hji
      have hz : rest.count j = 0 := by
        have := hc
        simp [List.count_cons] at this
        omega
      have hnot : j ∉ rest := by
        intro hm
        exact absurd hz (by simp [List.count_eq_zero, hm])
      simp only [List.foldl_cons]
      rw [foldl_tasks_getElem?_not_mem _ _ _ _ _ hnot]
      exact task_getElem?_self _ _ _ _ hts
    · simp only [List.foldl_cons]
      apply ih
      · have := hc
        simpa [List.count_cons, hji] using this
      · rw [task_getElem?_ne _ _ _ _ _ (fun hh => hji hh.symm)]
        exact hts

theorem runSchedule_length (n : Nat) (mid : String) (api : Nat → ApiResult)
    (order : List Nat) : (runSchedule n mid api order).length = n := by
  simp [runSchedule, foldl_tasks_length, initTasks_length]

theorem runSchedule_getElem? (n : Nat) (mid : String) (api : Nat → ApiResult)
    (order : List Nat) (i : Nat) (hc : order.count i = 1) (hi : i < n) :
    (runSchedule n mid api order)[i]? = some (finalOutcome i (api i)) :=
  foldl_tasks_getElem?_count_one mid api order (initTasks n) i hc
    (initTasks_getElem? n i hi)

theorem count_range_eq (n i : Nat) :
    (List.range n).count i = if i < n then 1 else 0 := by
  by_cases h : i < n
  · simp only [h, if_true]
    exact List.count_eq_one_of_mem (List.nodup_range n) (List.mem_range.2 h)
  · simp only [h, if_false]
    exact List.count_eq_zero.2 (fun hm => h (List.mem_range.1 hm))

/-! ### The event loop on single-segment coroutines -/

theorem eventLoop_singles {σ ε : Type} (q : List (Nat × Seg σ ε)) :
    ∀ (fuel : Nat), q.length ≤ fuel → ∀ (s : σ) (tr : List ε)
      (done : List Nat),
      eventLoop fuel (q.map (fun p => (p.1, [p.2]))) s tr done =
        (q.foldl (fun s p => p.2.run s) s,
          tr ++ (q.map (fun p => p.2.evs)).flatten,
          done ++ q.map Prod.fst) := by
  induction q with
  | nil =>
    intro fuel _ s tr done
    cases fuel <;> simp [eventLoop]
  | cons p q ih =>
    intro fuel hf s tr done
    cases fuel with
    | zero => simp at hf
    | succ f =>
      simp only [List.map_cons, eventLoop]
      rw [ih f (by simpa using hf)]
      simp [List.append_assoc]

theorem run_concurrent_eq (n : Nat) (mid : String) (api : Nat → ApiResult) :
    run_concurrent_analysis_thread n mid api =
      { tasks := runSchedule n mid api (List.range n)
        trace :=
          ((List.range n).map (fun i => [Ev.start i, Ev.finish i])).flatten
        completed := List.range n } := by
  unfold run_concurrent_analysis_thread
  rw [eventLoop_singles (tasks_to_run_segs n mid api) n
    (by simp [tasks_to_run_segs])]
  simp [tasks_to_run_segs, taskSeg, runSchedule, List.foldl_map,
    Function.comp_def]

/-! ### Trace lemmas -/

theorem inFlight_pairs_take_le_one (order : List Nat) :
    ∀ k : Nat,
      inFlight
        (((order.map (fun i => [Ev.start i, Ev.finish i])).flatten).take k) ≤
        1 := by
  induction order with
  | nil => intro k; simp [inFlight, inFlightFrom]
  | cons i rest ih =>
    intro k
    match k with
    | 0 => simp [inFlight, inFlightFrom]
    | 1 => simp [inFlight, inFlightFrom]
    | (m + 2) =>
      have hsplit :
          (((i :: rest).map (fun j => [Ev.start j, Ev.finish j])).flatten).take
              (m + 2) =
            Ev.start i :: Ev.finish i ::
              (((rest.map (fun j => [Ev.start j, Ev.finish j])).flatten).take
                m) := by
        simp [List.take_succ_cons]
      rw [hsplit]
      show inFlightFrom 0 _ ≤ 1
      simp only [inFlightFrom, Nat.add_sub_cancel]
      exact ih m

theorem countStart_pairs (order : List Nat) (i : Nat) :
    countStart i ((order.map (fun j => [Ev.start j, Ev.finish j])).flatten) =
      order.count i := by
  induction order with
  | nil => simp [countStart]
  | cons j rest ih =>
    simp only [List.map_cons, List.flatten_cons, List.cons_append,
      List.nil_append, countStart, ih, List.count_cons]
    by_cases h : j = i <;> simp [h] <;> omega

/-! ### Sequential characterisation -/

theorem runSchedule_range_eq_sequential (n : Nat) (mid : String)
    (api : Nat → ApiResult) :
    runSchedule n mid api (List.range n) = sequential_loop n api := by
  apply List.ext_getElem?
  intro i
  by_cases hi : i < n
  · rw [runSchedule_getElem? n mid api (List.range n) i
      (by simp [count_range_eq, hi]) hi]
    simp [sequential_loop, List.getElem?_map, List.getElem?_range, hi]
  · have h1 : (runSchedule n mid api (List.range n)).length ≤ i := by
      rw [runSchedule_length]; omega
    have h2 : (sequential_loop n api).length ≤ i := by
      simp [sequential_loop]; omega
    rw [List.getElem?_eq_none h1, List.getElem?_eq_none h2]

/-! ### The claims -/

/-- C1: for every batch, every behaviour of the remote calls and every
completion order of the per-item tasks (any permutation of the task
indices), the `i`-th element of the assembled task list is the outcome of
task `i`: each task writes only to the slot at its original index, so the
final result is indexed by original position, not by completion order. -/
theorem batch_result_indexed_by_original_position (n : Nat) (mid : String)
    (api : Nat → ApiResult) (order : List Nat)
    (hperm : order.Perm (List.range n)) (i : Nat) (hi : i < n) :
    (runSchedule n mid api order)[i]? = some (finalOutcome i (api i)) := by
  apply runSchedule_getElem? n mid api order i _ hi
  rw [hperm.count_eq, count_range_eq]
  simp [hi]

/-- Witness for C1: a concrete batch of three tasks completing in the
order 2, 0, 1 still stores task 0's outcome at position 0. -/
theorem batch_result_indexed_by_original_position_witness :
    ([2, 0, 1] : List Nat).Perm (List.range 3) ∧ (0 : Nat) < 3 ∧
      (runSchedule 3 "gemini-2.5-flash" apiSample [2, 0, 1])[0]? =
        some (finalOutcome 0 (apiSample 0)) :=
  ⟨by decide, by decide,
    batch_result_indexed_by_original_position 3 "gemini-2.5-flash" apiSample
      [2, 0, 1] (by decide) 0 (by decide)⟩

/-- C2, counterexample: the claim's mechanism — excess tasks wait until a
slot of a counting admission semaphore with `concurrency_limit` slots
frees, so that up to the limit calls run concurrently and a task waits
only when it is beyond the limit — is false of `app.py`, which contains
no semaphore at all.  Concretely, in a run with concurrency limit 2 and
two tasks, no task is beyond the limit and a slot is always free, yet the
second call still starts only after the first one has finished: the trace
is fully serialized and the in-flight count never reaches 2, so slot
availability is not what governs admission (the serialization comes from
the missing await point, not from any gate). -/
theorem concurrency_semaphore_gating_counterexample :
    (run_concurrent_analysis_thread 2 "gemini-2.5-flash" apiSample).trace =
        [Ev.start 0, Ev.finish 0, Ev.start 1, Ev.finish 1] ∧
      ∀ k : Nat,
        inFlight
          (((run_concurrent_analysis_thread 2 "gemini-2.5-flash"
              apiSample).trace).take k) < 2 := by
  constructor
  · decide
  · intro k
    rw [run_concurrent_eq]
    exact lt_of_le_of_lt (inFlight_pairs_take_le_one (List.range 2) k)
      (by omega)

/-- C2, amended: in a batch run with concurrency parameter `n`, at most `n`
remote analyze calls are actively executing at any instant — but not
because of any admission semaphore: the dispatcher creates exactly `n`
tasks making one call each and, the coroutine having no await point, runs
them strictly serially, so at every instant at most one call (hence at
most `n`) is in flight, and no task ever waits for a slot to free. -/
theorem analyze_calls_serial_and_within_limit (n : Nat) (mid : String)
    (api : Nat → ApiResult) (k : Nat) :
    inFlight (((run_concurrent_analysis_thread n mid api).trace).take k) ≤
        1 ∧
      inFlight (((run_concurrent_analysis_thread n mid api).trace).take k) ≤
        n := by
  rw [run_concurrent_eq]
  refine ⟨inFlight_pairs_take_le_one (List.range n) k, ?_⟩
  cases n with
  | zero => simp [inFlight, inFlightFrom]
  | succ m =>
    exact le_trans (inFlight_pairs_take_le_one (List.range (m + 1)) k)
      (by omega)

/-- C3: every item's terminal outcome is classified by the result of its
analyze call: a content-safety rejection gives status blocked, a
successful call gives status succeeded with the returned text as the
result, and any other exception gives status failed with the stringified
exception as error detail. -/
theorem outcome_classification_three_way (n : Nat) (mid : String)
    (api : Nat → ApiResult) (i : Nat) (hi : i < n) :
    ∃ r, ((run_concurrent_analysis_thread n mid api).tasks)[i]? = some r ∧
      (match api i with
       | .ok text => r.status = .succeeded ∧ r.result = some text
       | .blockedEx m => r.status = .blocked ∧ r.error_details = some m
       | .err m => r.status = .failed ∧ r.error_details = some m) := by
  refine ⟨finalOutcome i (api i), ?_, ?_⟩
  · rw [run_concurrent_eq]
    exact runSchedule_getElem? n mid api (List.range n) i
      (by simp [count_range_eq, hi]) hi
  · cases api i <;> simp [finalOutcome]

/-- Witness for C3: in a concrete three-task run, task 1 (rejected by the
safety settings) ends blocked with its error detail recorded. -/
theorem outcome_classification_three_way_witness :
    (1 : Nat) < 3 ∧
      ∃ r,
        ((run_concurrent_analysis_thread 3 "gemini-2.5-flash"
            apiSample).tasks)[1]? = some r ∧
          (match apiSample 1 with
           | .ok text => r.status = .succeeded ∧ r.result = some text
           | .blockedEx m => r.status = .blocked ∧ r.error_details = some m
           | .err m => r.status = .failed ∧ r.error_details = some m) :=
  ⟨by decide,
    outcome_classification_three_way 3 "gemini-2.5-flash" apiSample 1
      (by decide)⟩

/-- C4: the produced task list has exactly one entry per requested item: its
length equals the request count, exactly one task-state entry per item is
created before dispatch, and each task's transformer leaves every slot
other than its own unchanged (no item dropped or duplicated). -/
theorem batch_length_preserved_and_slots_isolated (n : Nat) (mid : String)
    (api : Nat → ApiResult) :
    ((run_concurrent_analysis_thread n mid api).tasks).length = n ∧
      (initTasks n).length = n ∧
      (∀ (i : Nat) (a : ApiResult) (ts : List TaskRec) (j : Nat), j ≠ i →
        (async_gemini_analysis_task mid i a ts)[j]? = ts[j]?) := by
  refine ⟨?_, initTasks_length n, ?_⟩
  · rw [run_concurrent_eq]
    exact runSchedule_length n mid api (List.range n)
  · intro i a ts j hj
    exact task_getElem?_ne mid i a ts j hj

/-- Witness for C4: a concrete two-task run yields two entries, and task 0
leaves slot 1 untouched. -/
theorem batch_length_preserved_and_slots_isolated_witness :
    ((run_concurrent_analysis_thread 2 "gemini-2.5-flash"
        apiSample).tasks).length = 2 ∧
      (async_gemini_analysis_task "gemini-2.5-flash" 0 (ApiResult.ok "t")
          (initTasks 2))[1]? = (initTasks 2)[1]? :=
  ⟨(batch_length_preserved_and_slots_isolated 2 "gemini-2.5-flash"
      apiSample).1,
    (batch_length_preserved_and_slots_isolated 2 "gemini-2.5-flash"
        apiSample).2.2 0 (ApiResult.ok "t") (initTasks 2) 1 (by decide)⟩

/-- C5: an exception in one item's analyze call is captured in that item's
own outcome and never escapes: the failing item ends failed with the
stringified exception, every other item's outcome is exactly the one its
own call produces, and every item of the batch reaches a terminal
outcome — the batch is never aborted. -/
theorem task_failure_isolated (n : Nat) (mid : String) (api : Nat → ApiResult)
    (i : Nat) (m : String) (hi : i < n) (hapi : api i = ApiResult.err m) :
    (∃ r, ((run_concurrent_analysis_thread n mid api).tasks)[i]? = some r ∧
        r.status = Status.failed ∧ r.error_details = some m) ∧
      (∀ j : Nat, j < n → j ≠ i →
        ((run_concurrent_analysis_thread n mid api).tasks)[j]? =
          some (finalOutcome j (api j))) ∧
      (∀ j : Nat, j < n →
        ∃ r, ((run_concurrent_analysis_thread n mid api).tasks)[j]? =
          some r ∧ r.status.isTerminal = true) := by
  have hget : ∀ j : Nat, j < n →
      ((run_concurrent_analysis_thread n mid api).tasks)[j]? =
        some (finalOutcome j (api j)) := by
    intro j hj
    rw [run_concurrent_eq]
    exact runSchedule_getElem? n mid api (List.range n) j
      (by simp [count_range_eq, hj]) hj
  refine ⟨⟨finalOutcome i (api i), hget i hi, ?_, ?_⟩,
    fun j hj _ => hget j hj, ?_⟩
  · rw [hapi]
    rfl
  · rw [hapi]
    rfl
  · intro j hj
    exact ⟨finalOutcome j (api j), hget j hj, by cases api j <;> rfl⟩

/-- Witness for C5: in a concrete three-task run whose task 2 raises a
network error, task 2 ends failed and tasks 0 and 1 still reach their own
terminal outcomes. -/
theorem task_failure_isolated_witness :
    (2 : Nat) < 3 ∧ apiSample 2 = ApiResult.err "network error" ∧
      ((∃ r, ((run_concurrent_analysis_thread 3 "gemini-2.5-flash"
            apiSample).tasks)[2]? = some r ∧
          r.status = Status.failed ∧ r.error_details = some "network error") ∧
        (∀ j : Nat, j < 3 → j ≠ 2 →
          ((run_concurrent_analysis_thread 3 "gemini-2.5-flash"
              apiSample).tasks)[j]? = some (finalOutcome j (apiSample j))) ∧
        (∀ j : Nat, j < 3 →
          ∃ r, ((run_concurrent_analysis_thread 3 "gemini-2.5-flash"
              apiSample).tasks)[j]? = some r ∧
            r.status.isTerminal = true)) :=
  ⟨by decide, by decide,
    task_failure_isolated 3 "gemini-2.5-flash" apiSample 2 "network error"
      (by decide) (by decide)⟩

/-- C6: the textual result is present only when the status is succeeded, the
error detail is present only when the status is blocked or failed, and
both fields start absent in the freshly created task record. -/
theorem result_error_fields_presence (n : Nat) (mid : String)
    (api : Nat → ApiResult) (j : Nat) (hj : j < n) :
    (initTask j).result = none ∧ (initTask j).error_details = none ∧
      ∃ r, ((run_concurrent_analysis_thread n mid api).tasks)[j]? = some r ∧
        (r.result.isSome = true → r.status = Status.succeeded) ∧
        (r.error_details.isSome = true →
          r.status = Status.blocked ∨ r.status = Status.failed) := by
  refine ⟨rfl, rfl, finalOutcome j (api j), ?_, ?_, ?_⟩
  · rw [run_concurrent_eq]
    exact runSchedule_getElem? n mid api (List.range n) j
      (by simp [count_range_eq, hj]) hj
  · cases api j <;> simp [finalOutcome]
  · cases api j <;> simp [finalOutcome]

/-- Witness for C6 at task 0 of a concrete three-task run. -/
theorem result_error_fields_presence_witness :
    (0 : Nat) < 3 ∧
      ((initTask 0).result = none ∧ (initTask 0).error_details = none ∧
        ∃ r, ((run_concurrent_analysis_thread 3 "gemini-2.5-flash"
            apiSample).tasks)[0]? = some r ∧
          (r.result.isSome = true → r.status = Status.succeeded) ∧
          (r.error_details.isSome = true →
            r.status = Status.blocked ∨ r.status = Status.failed)) :=
  ⟨by decide,
    result_error_fields_presence 3 "gemini-2.5-flash" apiSample 0 (by decide)⟩

/-- C7: the dispatcher performs exactly one analyze call per item and no
call beyond those: the run's event trace contains exactly one call start
for each index below `n` and none for any other index, so no item is
retried and no extra remote call is made. -/
theorem analyze_invoked_exactly_once (n : Nat) (mid : String)
    (api : Nat → ApiResult) (i : Nat) :
    countStart i ((run_concurrent_analysis_thread n mid api).trace) =
      if i < n then 1 else 0 := by
  rw [run_concurrent_eq]
  show countStart i
    ((List.map (fun i => [Ev.start i, Ev.finish i]) (List.range n)).flatten) =
    if i < n then 1 else 0
  rw [countStart_pairs, count_range_eq]

/-- C8: `build_report` fails fast on index-misaligned inputs of different
lengths — it returns an error for the whole call rather than truncating
to the shorter or padding the longer input — and on equal-length inputs
it produces exactly one report row per pair, preserving input order. -/
theorem build_report_fail_fast (items : List WorkItem)
    (results : List TaskRec) :
    (items.length ≠ results.length →
        build_report items results =
          Except.error
            "build_report: items and results must be index-aligned and of equal length") ∧
      (items.length = results.length →
        ∃ rows, build_report items results = Except.ok rows ∧
          rows.length = items.length ∧
          ∀ k : Nat,
            rows[k]? =
              items[k]?.bind (fun it => results[k]?.map (report_row it))) := by
  constructor
  · intro h
    simp [build_report, h]
  · intro h
    refine ⟨List.zipWith report_row items results, by simp [build_report, h],
      ?_, ?_⟩
    · simp [List.length_zipWith, h]
    · intro k
      rw [List.getElem?_zipWith]
      cases items[k]? <;> cases results[k]? <;> simp

/-- Witness for C8: a one-item/zero-outcome call fails whole, and a
one-item/one-outcome call yields exactly one ordered row. -/
theorem build_report_fail_fast_witness :
    (build_report [sampleItem] [] =
        Except.error
          "build_report: items and results must be index-aligned and of equal length") ∧
      ∃ rows, build_report [sampleItem] [sampleRec] = Except.ok rows ∧
        rows.length = [sampleItem].length ∧
        ∀ k : Nat,
          rows[k]? =
            [sampleItem][k]?.bind
              (fun it => ([sampleRec] : List TaskRec)[k]?.map (report_row it)) :=
  ⟨(build_report_fail_fast [sampleItem] []).1 (by decide),
    (build_report_fail_fast [sampleItem] [sampleRec]).2 rfl⟩

/-- C9: every task of a concurrent batch receives the same prompt, the same
audio byte payload, the same content type and the same model id — the
batch is `n` replicas of the single uploaded file — and the tasks differ
only in their index. -/
theorem concurrent_tasks_identical_args (n : Nat) (user_prompt : String)
    (uploaded_file_bytes : List Nat) (uploaded_file_type : String)
    (model_id : String) (i : Nat) (hi : i < n) :
    (tasks_to_run n user_prompt uploaded_file_bytes uploaded_file_type
        model_id)[i]? =
      some
        { task_index := i
          prompt := user_prompt
          audio_bytes := uploaded_file_bytes
          mime_type := uploaded_file_type
          model_id := model_id } := by
  simp [tasks_to_run, List.getElem?_map, List.getElem?_range, hi]

/-- Witness for C9 at task 1 of a concrete two-task batch. -/
theorem concurrent_tasks_identical_args_witness :
    (1 : Nat) < 2 ∧
      (tasks_to_run 2 "请描述这段音频" [7, 8] "audio/mpeg"
          "gemini-2.5-pro")[1]? =
        some
          { task_index := 1
            prompt := "请描述这段音频"
            audio_bytes := [7, 8]
            mime_type := "audio/mpeg"
            model_id := "gemini-2.5-pro" } :=
  ⟨by decide,
    concurrent_tasks_identical_args 2 "请描述这段音频" [7, 8] "audio/mpeg"
      "gemini-2.5-pro" 1 (by decide)⟩

/-- C10: because the per-item coroutine contains no await point, the
gathered batch is equivalent to a sequential loop over the items in index
order: the final task list equals the sequential loop's output, the
completion order equals the input order, and at every instant at most one
analyze call is in flight. -/
theorem no_await_sequential_refinement (n : Nat) (mid : String)
    (api : Nat → ApiResult) :
    (run_concurrent_analysis_thread n mid api).tasks =
        sequential_loop n api ∧
      (run_concurrent_analysis_thread n mid api).completed = List.range n ∧
      ∀ k : Nat,
        inFlight
          (((run_concurrent_analysis_thread n mid api).trace).take k) ≤ 1 := by
  rw [run_concurrent_eq]
  refine ⟨runSchedule_range_eq_sequential n mid api, rfl, ?_⟩
  intro k
  exact inFlight_pairs_take_le_one (List.range n) k

end GeminiMusic
